import Mathlib

/-!
Shallow embedding of the orchestration core of the Aster MCP server
(src/mcp/utils.js, src/mcp/tools.js, src/mcp/solana-deposit-builder.js,
src/mcp/tokens-config.js and the deposit-contract registry), together with
theorems settling the specification claims about it.

External library primitives (the HTTP transport, the crypto HMAC digest,
`encodeURIComponent`, the ethers address-checksum and wallet functions and
the ethers typed-data signer) are not code of this repository; they are
passed in as explicit function parameters, and on-chain reads and
transaction outcomes are supplied through environment records.  Everything
the repository itself computes is translated directly from the source.
-/

namespace AsterMcp

/-- JS parameter values as they occur in the API parameter maps of this
program: strings or (integer) numbers.  `toStr` is the JS string coercion
applied by `encodeURIComponent(params[key])`. -/
inductive PValue
  | str (s : String)
  | num (n : Nat)
  deriving DecidableEq, Repr

/-- JS string coercion of a parameter value. -/
def PValue.toStr : PValue → String
  | .str s => s
  | .num n => toString n

/-- JS truthiness of an optional parameter value (as in
`!requestParams.timestamp`): absent, the empty string and the number 0 are
falsy. -/
def truthyPV : Option PValue → Bool
  | none => false
  | some (.str s) => s ≠ ""
  | some (.num n) => n ≠ 0

/-- Property read `params[key]` on a JS object modelled as an association
list in insertion order with unique keys. -/
def getField (k : String) : List (String × PValue) → Option PValue
  | [] => none
  | (k₁, v) :: rest => if k₁ = k then some v else getField k rest

/-- Property write `params[key] = v` on a JS object: replaces the value of
an existing key in place, appends a new key at the end. -/
def setField (k : String) (v : PValue) : List (String × PValue) → List (String × PValue)
  | [] => [(k, v)]
  | (k₁, v₁) :: rest => if k₁ = k then (k, v) :: rest else (k₁, v₁) :: setField k v rest

/-- Model of the JS built-in toLowerCase on the ASCII strings this program
handles (core's String.toLower is opaque to kernel reduction, so the
character map is applied over the underlying list). -/
def lowerStr (s : String) : String := ⟨s.data.map Char.toLower⟩

/-- Model of the JS built-in toUpperCase on the ASCII strings this program
handles. -/
def upperStr (s : String) : String := ⟨s.data.map Char.toUpper⟩

/-- Numeric value of a list of decimal digit characters, most significant
first. -/
def digitsValN (ds : List Char) : ℕ :=
  ds.foldl (fun acc c => acc * 10 + (c.toNat - 48)) 0

/-- Model of the JavaScript built-in `parseFloat` restricted to its
behaviour on the unsigned part: longest prefix of digits, optionally
followed by a dot and more digits; no digits at all is `NaN` (`none`).
The result is the exact decimal value, represented as an integer mantissa
together with the number of fractional digits (the value is
mantissa / 10 ^ scale), so that every comparison the program performs on
it reduces in the kernel. -/
def parseUnsignedFloat (cs : List Char) : Option (ℤ × ℕ) :=
  let intDigits := cs.takeWhile (·.isDigit)
  let rest := cs.dropWhile (·.isDigit)
  let fracDigits := match rest with
    | '.' :: r => r.takeWhile (·.isDigit)
    | _ => []
  if intDigits.isEmpty && fracDigits.isEmpty then none
  else some (((digitsValN intDigits * 10 ^ fracDigits.length + digitsValN fracDigits : ℕ) : ℤ),
    fracDigits.length)

/-- Model of the JavaScript built-in `parseFloat` on the decimal strings
this program feeds it: leading whitespace skipped, optional sign, digits
with an optional fractional part, trailing garbage ignored; `NaN` is
`none`.  Exponent notation is not modelled (no claim evaluates it), and
the value is kept exact rather than rounded to an IEEE double. -/
def parseFloat (s : String) : Option (ℤ × ℕ) :=
  match s.data.dropWhile (·.isWhitespace) with
  | '-' :: rest => (parseUnsignedFloat rest).map (fun p => (-p.1, p.2))
  | '+' :: rest => parseUnsignedFloat rest
  | cs => parseUnsignedFloat cs

/-- Exact rational value of a parsed float. -/
def pfloatVal (p : ℤ × ℕ) : ℚ := (p.1 : ℚ) / 10 ^ p.2

/-- `validateAmount` (utils.js line 250): parses the amount with
`parseFloat` and throws when the result is `NaN` or `≤ 0`; a parsed value
is positive exactly when its mantissa is.  `true` means the validation
passes. -/
def validateAmountB (amount : String) : Bool :=
  match parseFloat amount with
  | none => false
  | some p => decide (0 < p.1)

/-- `validateNetwork` (utils.js line 267): the lower-cased network name
must be one of the allowed networks. -/
def validateNetworkB (network : String) (allowedNetworks : List String) : Bool :=
  allowedNetworks.contains (lowerStr network)

/-- Default allowed networks of `validateNetwork`. -/
def defaultNetworks : List String := ["ethereum", "arbitrum", "bnb", "solana"]

/-! ### Solana deposit instruction encoding (solana-deposit-builder.js) -/

/-- Little-endian byte list of `v` with `k` bytes; byte `i` is
`(v >> 8 i) mod 256`.  `leBytes 8` is the contents written by
`Buffer.writeBigUInt64LE`. -/
def leBytes : ℕ → ℕ → List ℕ
  | 0, _ => []
  | k + 1, v => v % 256 :: leBytes k (v / 256)

/-- Value of a little-endian byte list; on an 8-byte slice this is
`Buffer.readBigUInt64LE`. -/
def fromLeBytes : List ℕ → ℕ
  | [] => 0
  | b :: bs => b + 256 * fromLeBytes bs

/-- Instruction discriminator for deposit (solana-deposit-builder.js). -/
def DEPOSIT_DISCRIMINATOR : ℕ := 0x6c

/-- Fixed broker id constant of solana-deposit-builder.js. -/
def BROKER_ID : ℕ := 56357235818057297

/-- `buildDepositInstructionData` generalised over the broker id the source
keeps as the constant `BROKER_ID`.  The source first writes the
discriminator byte at offset 0 and then overwrites bytes 0–7 with the
64-bit little-endian word `(brokerId << 8n) | BigInt(0x6c)` (equal to
`brokerId * 256 + 0x6c`, whose low byte is again `0x6c`), and writes the
amount as a 64-bit little-endian word at offset 8; the list below is the
final buffer contents. -/
def buildDepositInstructionDataWith (brokerId amountLamports : ℕ) : List ℕ :=
  leBytes 8 (brokerId * 256 + DEPOSIT_DISCRIMINATOR) ++ leBytes 8 amountLamports

/-- `buildDepositInstructionData` (solana-deposit-builder.js line 36) with
the source's fixed broker id. -/
def buildDepositInstructionData (amountLamports : ℕ) : List ℕ :=
  buildDepositInstructionDataWith BROKER_ID amountLamports

/-- Decoded form of a deposit instruction buffer.  The source also derives
`amountSOL` (a floating-point debug convenience) and a hex dump of the raw
buffer; those presentation fields are not modelled. -/
structure DecodedInstruction where
  discriminator : ℕ
  broker : ℕ
  amountLamports : ℕ
  deriving DecidableEq, Repr

/-- `decodeInstructionData` (solana-deposit-builder.js line 124): throws
(`none`) unless the buffer has exactly 16 bytes; reads the discriminator
byte at offset 0, the broker as the 64-bit little-endian word at offset 0
shifted right by 8 bits, and the amount as the 64-bit little-endian word
at offset 8. -/
def decodeInstructionData (data : List ℕ) : Option DecodedInstruction :=
  if data.length ≠ 16 then none
  else
    let discriminator := data.headD 0
    let fullValue := fromLeBytes (data.take 8)
    let broker := fullValue / 256
    let amountLamports := fromLeBytes ((data.drop 8).take 8)
    some ⟨discriminator, broker, amountLamports⟩

/-! ### Canonical query strings and HMAC signing (utils.js) -/

/-- `generateHmacSignature` (utils.js line 193): applies the external
crypto HMAC-SHA256 primitive (passed as `hmacSha256`) to the query string
and the secret. -/
def generateHmacSignature (hmacSha256 : String → String → String)
    (queryString secret : String) : String :=
  hmacSha256 queryString secret

/-- `buildQueryString` (utils.js line 205): sorts the parameter keys
lexicographically, percent-encodes key and value and joins the pairs with
ampersands.  `enc` is the JavaScript built-in `encodeURIComponent`, an
external primitive passed as a parameter; reading a missing key yields JS
`undefined`, coerced to the string "undefined". -/
def buildQueryString (enc : String → String) (params : List (String × PValue)) : String :=
  String.intercalate "&"
    (((params.map Prod.fst).insertionSort (· ≤ ·)).map
      (fun key => enc key ++ "=" ++
        enc (((getField key params).map PValue.toStr).getD "undefined")))

/-! ### Private-key resolution (utils.js line 343) -/

/-- `getWalletPrivateKey` (utils.js line 343).  `derive` is the external
`ethers.Wallet.fromPhrase`, returning the derived private key or an error
message; the second component of the result counts how many times it was
invoked.  A `none` or empty user key is falsy in JS and falls through to
the next tier, as does an empty configured key or mnemonic. -/
def getWalletPrivateKey (userPrivateKey : Option String)
    (configPrivateKey configMnemonic : String)
    (derive : String → Except String String) (network : String) :
    Except String String × ℕ :=
  let networkInfo := if network ≠ "" then " for " ++ network else ""
  if (userPrivateKey.getD "") ≠ "" then (.ok (userPrivateKey.getD ""), 0)
  else if configPrivateKey ≠ "" then (.ok configPrivateKey, 0)
  else if configMnemonic ≠ "" then
    match derive configMnemonic with
    | .ok key => (.ok key, 1)
    | .error e => (.error ("Failed to derive private key from mnemonic: " ++ e), 1)
  else
    (.error ("No wallet credentials available" ++ networkInfo ++
      ". Please provide privateKey parameter or set network-specific environment variables (e.g., ETHEREUM_WALLET_PRIVATE_KEY or ETHEREUM_WALLET_MNEMONIC)"), 0)

/-! ### Authenticated request client (utils.js line 494) -/

/-- External HTTP transport outcome of one axios call: success with body
and headers, an HTTP error response (whose body may carry a provider
error code and message), or a pure network failure without a response. -/
inductive TransportResult
  | ok (data : String) (headers : String)
  | httpError (status : ℕ) (dataCode : Option Int) (dataMsg : Option String)
      (errMessage : String)
  | netFail (message : String)
  deriving DecidableEq, Repr

/-- Axios request configuration assembled by `makeApiRequest`. -/
structure AxiosConfig where
  method : String
  url : String
  contentType : Option String
  apiKeyHeader : Option String
  data : Option String
  deriving DecidableEq, Repr

/-- Result variants of `makeApiRequest` (utils.js lines 575–603): transport
success wraps the body; an HTTP error response becomes the provider-error
shape carrying code, message and httpStatus; anything thrown without a
response object becomes the network-error shape (message plus the literal
type tag NetworkError). -/
inductive ApiResponse
  | success (data : String) (headers : String)
  | apiError (code : Int) (message : String) (httpStatus : ℕ)
  | networkError (message : String)
  deriving DecidableEq, Repr

/-- Timestamp and receive-window injection for signed requests
(utils.js lines 515–524): each is added only when the caller has not
already supplied a truthy value for it. -/
def buildRequestParams (params : List (String × PValue)) (signed : Bool)
    (now recvWindow : ℕ) : List (String × PValue) :=
  if signed then
    let p₁ := if truthyPV (getField "timestamp" params) then params
              else setField "timestamp" (.num now) params
    if truthyPV (getField "recvWindow" p₁) then p₁
    else setField "recvWindow" (.num recvWindow) p₁
  else params

/-- Options record of `makeApiRequest` with the source's defaults. -/
structure ApiOptions where
  baseUrl : String
  endpoint : String
  method : String := "GET"
  params : List (String × PValue) := []
  signed : Bool := false
  apiKey : String := ""
  apiSecret : String := ""
  recvWindow : ℕ := 5000

/-- External primitives consumed by the request client: percent-encoding,
the HMAC-SHA256 digest, the epoch-milliseconds clock and the HTTP
transport. -/
structure Externals where
  enc : String → String
  hmacSha256 : String → String → String
  now : ℕ
  transport : AxiosConfig → TransportResult

/-- Observable outcome of one `makeApiRequest` call: the returned
response, whether the HTTP transport was actually invoked, and the
parameter map that was signed and sent.  In the missing-credential branch
the source never builds that map; the caller's map is returned unchanged
there. -/
structure ApiRequestOut where
  response : ApiResponse
  httpCalled : Bool
  requestParams : List (String × PValue)
  deriving DecidableEq, Repr

/-- Message of the missing-credentials error thrown at utils.js line 509. -/
def missingCredentialsMsg : String :=
  "API credentials not configured. API key and secret are required for signed requests"

/-- `makeApiRequest` (utils.js line 494).  The missing-credential check
throws inside the function's own try block; the thrown error carries no
response object, so the catch at line 581 reports it through the same
branch that reports pure network failures.  Empty-string key or secret is
falsy in JS and counts as absent. -/
def makeApiRequest (opts : ApiOptions) (ext : Externals) : ApiRequestOut :=
  if opts.signed ∧ (opts.apiKey = "" ∨ opts.apiSecret = "") then
    { response := .networkError missingCredentialsMsg
      httpCalled := false
      requestParams := opts.params }
  else
    let requestParams := buildRequestParams opts.params opts.signed ext.now opts.recvWindow
    let queryString := buildQueryString ext.enc requestParams
    let signature :=
      if opts.signed then generateHmacSignature ext.hmacSha256 queryString opts.apiSecret
      else ""
    let fullQuery :=
      if opts.signed then queryString ++ "&signature=" ++ signature else queryString
    let config : AxiosConfig :=
      { method := opts.method
        url := opts.baseUrl ++ opts.endpoint ++
          (if (opts.method = "GET" ∨ opts.method = "DELETE") ∧ fullQuery ≠ ""
           then "?" ++ fullQuery else "")
        contentType :=
          if opts.method = "POST" ∨ opts.method = "PUT"
          then some "application/x-www-form-urlencoded" else none
        apiKeyHeader := if opts.apiKey ≠ "" then some opts.apiKey else none
        data := if opts.method = "POST" ∨ opts.method = "PUT" then some fullQuery else none }
    match ext.transport config with
    | .ok data headers => ⟨.success data headers, true, requestParams⟩
    | .httpError status dataCode dataMsg errMessage =>
        ⟨.apiError
          (match dataCode with
           | some code => if code ≠ 0 then code else (status : Int)
           | none => (status : Int))
          (match dataMsg with
           | some msg => if msg ≠ "" then msg else errMessage
           | none => errMessage)
          status, true, requestParams⟩
    | .netFail message => ⟨.networkError message, true, requestParams⟩

/-! ### EIP-712 withdrawal signature (utils.js line 402) -/

/-- Chain-id to chain-name lookup of `generateEIP712Signature`
(utils.js line 443). -/
def chainNames (chainId : String) : Option String :=
  if chainId = "1" then some "ETH"
  else if chainId = "56" then some "BSC"
  else if chainId = "42161" then some "Arbi"
  else none

/-- EIP-712 message value of the `Action` schema signed for a withdrawal
(utils.js lines 450–459).  Fields follow the source's JSON keys; the
nonce is an arbitrary-precision natural, as the source converts it to
BigInt before signing. -/
structure TypedValue where
  type : String
  destination : String
  destinationChain : String
  token : String
  amount : String
  fee : String
  nonce : ℕ
  asterChain : String
  deriving DecidableEq, Repr

/-- `generateEIP712Signature` (utils.js line 402).  `getAddress` is the
external ethers checksum normalizer applied to the lower-cased target
address (`none` models its throw on an invalid address) and `signTyped`
the external ethers typed-data signer; the fixed domain (name Aster,
version 1, the parsed chain id, zero verifying contract) is folded into
`signTyped`.  The target falls back from destination to receiver under JS
falsiness.  Returns the signature together with the signed message value;
the source returns only the signature, and the value is exposed here so
theorems can state what was signed. -/
def generateEIP712Signature (getAddress : String → Option String)
    (signTyped : TypedValue → String)
    (chainId destination receiver token amount fee : String) (nonce : ℕ) :
    Except String (String × TypedValue) :=
  let targetAddress := if destination ≠ "" then destination else receiver
  match getAddress (lowerStr targetAddress) with
  | none => .error ("Invalid destination address: " ++ targetAddress)
  | some normalizedDestination =>
    let value : TypedValue :=
      { type := "Withdraw"
        destination := normalizedDestination
        destinationChain := (chainNames chainId).getD "ETH"
        token := token
        amount := amount
        fee := fee
        nonce := nonce
        asterChain := "Mainnet" }
    .ok (signTyped value, value)

/-! ### Withdraw operation (tools.js line 973) -/

/-- Stablecoin set carrying the policy minimum (tools.js line 983). -/
def stablecoins : List String := ["USDT", "USDC", "BUSD", "DAI", "TUSD"]

/-- Network-name to chain-id map used by withdraw and the fee quote
(tools.js line 995); lookups outside the validated set are JS `undefined`,
modelled as the empty string. -/
def chainIdMap (networkLower : String) : String :=
  if networkLower = "ethereum" then "1"
  else if networkLower = "arbitrum" then "42161"
  else if networkLower = "bnb" then "56"
  else ""

/-- Stablecoin minimum-amount condition (tools.js lines 983–992): the
upper-cased token is in the stablecoin set and the parsed amount is below
1.  An unparsable amount gives NaN, and NaN compared below 1 is false in
JS. -/
def stablecoinFloorReject (tokenUpper amount : String) : Bool :=
  stablecoins.contains tokenUpper &&
    (match parseFloat amount with
     | some p => decide (p.1 < 10 ^ p.2)
     | none => false)

/-- Minimum-amount error message (tools.js line 989). -/
def stablecoinFloorMsg (tokenUpper amount : String) : String :=
  "Minimum withdrawal amount for " ++ tokenUpper ++
    " is 1.0 (stablecoin). You tried to withdraw " ++ amount ++
    ". For other tokens (BTC, ETH, BNB, ASTER, etc.) smaller amounts are allowed due to higher prices."

/-- External interactions a withdraw performs after validation, in source
order: the fee-quote sub-call, the typed-data signing, and the exchange
API call — the latter carries the full request-client outcome so theorems
can inspect the signed parameter map and whether HTTP was reached. -/
inductive WithdrawEffect
  | feeQuote (token network : String)
  | sign (value : TypedValue)
  | apiCall (endpoint : String) (out : ApiRequestOut)
  deriving DecidableEq, Repr

/-- Environment of one withdraw call: the per-network configured
credentials with the external key-derivation function, the external
ethers wallet-address and checksum functions, the fee-quote outcome, the
typed-data signer, the exchange API configuration and the request-client
externals (whose clock also provides Date.now for the withdraw itself). -/
structure WithdrawEnv where
  configKey : String → String
  configMnemonic : String → String
  derive : String → Except String String
  addrOf : String → String
  getAddress : String → Option String
  feeQuote : String → String → Except String String
  signTyped : TypedValue → String
  baseUrl : String
  apiKey : String
  apiSecret : String
  recvWindow : ℕ
  ext : Externals

/-- Result of a withdraw call: success keeps the exchange's response body;
failures carry the error message in the `handleError` shape. -/
inductive WithdrawResult
  | ok (data : String)
  | failure (error : String)
  deriving DecidableEq, Repr

/-- Destination resolution of withdraw (tools.js line 1011): the caller's
toAddress, or the signing wallet's own address (the receiver) when the
caller's value is absent or empty (falsy in JS). -/
def withdrawDestination (toAddress : Option String) (receiver : String) : String :=
  match toAddress with
  | some a => if a ≠ "" then a else receiver
  | none => receiver

/-- API parameter map of the withdrawal submission (tools.js line 1080):
chainId, asset, amount, fee, receiver, the microsecond nonce, the user
signature and the millisecond timestamp — and deliberately no destination
key, which exists only inside the EIP-712 signature. -/
def withdrawParamsList (chainId tokenUpper amount fee receiver : String)
    (nonce : ℕ) (userSignature : String) (timestamp : ℕ) :
    List (String × PValue) :=
  [("chainId", .str chainId), ("asset", .str tokenUpper),
   ("amount", .str amount), ("fee", .str fee),
   ("receiver", .str receiver), ("nonce", .str (toString nonce)),
   ("userSignature", .str userSignature), ("timestamp", .num timestamp)]

/-- `withdraw` (tools.js line 973), returning the result together with the
ordered trace of external interactions.  Parameter validation and the
stablecoin floor run before anything external; the fee quote precedes
signing; the destination falls back to the signing wallet's own address
when the caller supplies none; the API parameter map carries the receiver,
the microsecond nonce computed as timestamp × 1000 from the single
millisecond timestamp taken once, and that timestamp itself, so the
request client keeps it rather than generating another. -/
def withdraw (env : WithdrawEnv) (network token amount : String)
    (toAddress : Option String) (privateKey : Option String) :
    WithdrawResult × List WithdrawEffect :=
  if ¬ validateNetworkB network ["ethereum", "arbitrum", "bnb"] then
    (.failure "Invalid network. Must be one of: ethereum, arbitrum, bnb", [])
  else if ¬ validateAmountB amount then
    (.failure "amount must be a positive number", [])
  else
    let tokenUpper := upperStr token
    let networkLower := lowerStr network
    if stablecoinFloorReject tokenUpper amount then
      (.failure (stablecoinFloorMsg tokenUpper amount), [])
    else
      let chainId := chainIdMap networkLower
      match (getWalletPrivateKey privateKey (env.configKey networkLower)
          (env.configMnemonic networkLower) env.derive networkLower).1 with
      | .error e => (.failure e, [])
      | .ok signingKey =>
        let receiver := env.addrOf signingKey
        let destination := withdrawDestination toAddress receiver
        match env.feeQuote token network with
        | .error e =>
            (.failure ("Failed to get withdrawal fee: " ++ e),
             [.feeQuote token network])
        | .ok fee =>
          let timestamp := env.ext.now
          let nonce := timestamp * 1000
          match generateEIP712Signature env.getAddress env.signTyped chainId
              destination receiver tokenUpper amount fee nonce with
          | .error e => (.failure e, [.feeQuote token network])
          | .ok (userSignature, signedValue) =>
            let out := makeApiRequest
              { baseUrl := env.baseUrl, endpoint := "/api/v1/aster/user-withdraw",
                method := "POST",
                params := withdrawParamsList chainId tokenUpper amount fee
                  receiver nonce userSignature timestamp,
                signed := true, apiKey := env.apiKey, apiSecret := env.apiSecret,
                recvWindow := env.recvWindow } env.ext
            let trace := [.feeQuote token network, .sign signedValue,
              .apiCall "/api/v1/aster/user-withdraw" out]
            match out.response with
            | .success data _ => (.ok data, trace)
            | .apiError _ m _ => (.failure m, trace)
            | .networkError m => (.failure m, trace)

/-- The request-client outcomes among a withdraw trace's effects. -/
def apiOuts (trace : List WithdrawEffect) : List ApiRequestOut :=
  trace.filterMap (fun eff => match eff with
    | .apiCall _ out => some out
    | _ => none)

/-- The EIP-712 message values signed along a withdraw trace. -/
def signedValues (trace : List WithdrawEffect) : List TypedValue :=
  trace.filterMap (fun eff => match eff with
    | .sign v => some v
    | _ => none)

/-! ### Token registry (tokens-config.js) and deposit contracts -/

/-- Token descriptor of tokens-config.js; native entries carry no
address. -/
structure TokenConfig where
  symbol : String
  name : String
  address : Option String
  decimals : ℕ
  type : String
  deriving DecidableEq, Repr

/-- Ethereum entries of the TOKENS table. -/
def tokensEthereum (symbolUpper : String) : Option TokenConfig :=
  if symbolUpper = "ETH" then some ⟨"ETH", "Ethereum", none, 18, "native"⟩
  else if symbolUpper = "USDT" then
    some ⟨"USDT", "Tether USD", some "0xdAC17F958D2ee523a2206206994597C13D831ec7", 6, "erc20"⟩
  else if symbolUpper = "USD1" then
    some ⟨"USD1", "USD1", some "0x8d0d000ee44948fc98c9b98a4fa4921476f08b0d", 18, "erc20"⟩
  else if symbolUpper = "USDC" then
    some ⟨"USDC", "Token USDC", some "0xA0b86991c6218b36c1d19D4a2e9Eb0cE3606eB48", 6, "erc20"⟩
  else if symbolUpper = "BTC" then
    some ⟨"WBTC", "Wrapped Bitcoin", some "0x2260FAC5E5542a773Aa44fBCfeDf7C193bc2C599", 8, "erc20"⟩
  else none

/-- Arbitrum entries of the TOKENS table. -/
def tokensArbitrum (symbolUpper : String) : Option TokenConfig :=
  if symbolUpper = "ETH" then some ⟨"ETH", "Ethereum", none, 18, "native"⟩
  else if symbolUpper = "USDT" then
    some ⟨"USDT", "Tether USD", some "0xFd086bC7CD5C481DCC9C85ebE478A1C0b69FCbb9", 6, "erc20"⟩
  else if symbolUpper = "USDC" then
    some ⟨"USDC", "Token USD Coin", some "0xaf88d065e77c8cC2239327C5EDb3A432268e5831", 6, "erc20"⟩
  else none

/-- BNB Chain entries of the TOKENS table. -/
def tokensBnb (symbolUpper : String) : Option TokenConfig :=
  if symbolUpper = "BNB" then some ⟨"BNB", "BNB", none, 18, "native"⟩
  else if symbolUpper = "USDT" then
    some ⟨"USDT", "Tether USD", some "0x55d398326f99059fF775485246999027B3197955", 18, "erc20"⟩
  else if symbolUpper = "ASTER" then
    some ⟨"ASTER", "Aster Token", some "0x000Ae314E2A2172a039B26378814C252734f556A", 18, "erc20"⟩
  else if symbolUpper = "USD1" then
    some ⟨"USD1", "USD1", some "0x8d0D000Ee44948FC98c9B98A4FA4921476f08B0d", 18, "erc20"⟩
  else if symbolUpper = "APX" then
    some ⟨"APX", "Token APX Token", some "0x78F5d389F5CDCcFc41594aBaB4B0Ed02F31398b3", 18, "erc20"⟩
  else if symbolUpper = "ETH" then
    some ⟨"wBETH", "Token Wrapped Binance Beacon ETH", some "0xa2E3356610840701BDf5611a53974510Ae27E2e1", 18, "erc20"⟩
  else if symbolUpper = "BTC" then
    some ⟨"BTCB", "Token Binance-Peg BTCB Token", some "0x7130d2A12B9BCbFAe4f2634d864A1Ee1Ce3Ead9c", 18, "erc20"⟩
  else none

/-- Solana entries of the TOKENS table. -/
def tokensSolana (symbolUpper : String) : Option TokenConfig :=
  if symbolUpper = "SOL" then some ⟨"SOL", "Solana", none, 9, "native"⟩
  else if symbolUpper = "USDT" then
    some ⟨"USDT", "Tether USD", some "Es9vMFrzaCERmJfrF4H2FYD4KCoNkY11McCe8BenwNYB", 6, "spl"⟩
  else if symbolUpper = "USDC" then
    some ⟨"USDC", "USD Coin", some "EPjFWdd5AufqSSqeM2qN1xzybapC8G4wEGGkZwyTDt1v", 6, "spl"⟩
  else if symbolUpper = "JLP" then
    some ⟨"JLP", "Jupiter LP Token", some "27G8MtK7VtTcCHkpASjSDdkWWYfoqT6ggEuKidVJidD4", 6, "spl"⟩
  else if symbolUpper = "USD1" then
    some ⟨"USD1", "USD1", some "USD1ttGY1N17NEEHLmELoaybftRBUSErhqYiQzvEmuB", 9, "spl"⟩
  else if symbolUpper = "BTC" then
    some ⟨"BTC", "Wrapped Bitcoin (Sollet)", some "9n4nbM75f5Ui33ZbPYXn59EwSgE8CGsHtAeTH5YFeJ9E", 6, "spl"⟩
  else none

/-- TOKENS table of tokens-config.js, keyed by lower-cased network. -/
def TOKENS (networkLower : String) : Option (String → Option TokenConfig) :=
  if networkLower = "ethereum" then some tokensEthereum
  else if networkLower = "arbitrum" then some tokensArbitrum
  else if networkLower = "bnb" then some tokensBnb
  else if networkLower = "solana" then some tokensSolana
  else none

/-- `getTokenConfig` (tokens-config.js line 200): case-insensitive lookup
by network and symbol; the network tag the source spreads into the result
carries no extra information and is dropped. -/
def getTokenConfig (symbol network : String) : Option TokenConfig :=
  match TOKENS (lowerStr network) with
  | none => none
  | some networkTokens => networkTokens (upperStr symbol)

/-- Deposit-contract registry entry (deposit-contracts file); the Solana
entry's treasury account and the EVM chain ids are not consumed by the
modelled operations and are omitted. -/
structure DepositContractInfo where
  address : String
  explorerUrl : String
  deriving DecidableEq, Repr

/-- DEPOSIT_CONTRACTS registry. -/
def DEPOSIT_CONTRACTS (networkLower : String) : Option DepositContractInfo :=
  if networkLower = "ethereum" then
    some ⟨"0x604dd02d620633ae427888d41bfd15e38483736e", "https://etherscan.io/tx/"⟩
  else if networkLower = "arbitrum" then
    some ⟨"0x9E36CB86a159d479cEd94Fa05036f235Ac40E1d5", "https://arbiscan.io/tx/"⟩
  else if networkLower = "bnb" then
    some ⟨"0x128463a60784c4d3f46c23af3f65ed859ba87974", "https://bscscan.com/tx/"⟩
  else if networkLower = "solana" then
    some ⟨"EhUtRgu9iEbZXXRpEvDj6n1wnQRjMi2SERDo3c6bmN2c", "https://solscan.io/tx/"⟩
  else none

/-- `getDepositContract` (deposit-contracts file line 105): registry miss
or a placeholder address throws. -/
def getDepositContract (network : String) : Except String DepositContractInfo :=
  match DEPOSIT_CONTRACTS (lowerStr network) with
  | none => .error ("Deposit contract not configured for network: " ++ network)
  | some contract =>
    if contract.address = "0x0000000000000000000000000000000000000000" ∨
        contract.address = "11111111111111111111111111111111" then
      .error ("Deposit contract address not configured for " ++ network ++
        ". Please add the real contract address in deposit-contracts.js")
    else .ok contract

/-! ### Deposit operation (tools.js line 548) -/

/-- Model of `ethers.parseUnits` on a decimal string: exact scaling by
10 to the decimals; `none` models its throw on a malformed number or on
more fractional digits than the token allows.  (The `parseFloat` model is
reused for reading the digits; ethers itself is stricter about trailing
garbage, which no claim exercises.) -/
def parseUnits (s : String) (decimals : ℕ) : Option ℤ :=
  match parseFloat s with
  | none => none
  | some p => if p.2 ≤ decimals then some (p.1 * 10 ^ (decimals - p.2)) else none

/-- Transaction receipt data consumed by the deposit paths. -/
structure TxInfo where
  hash : String
  blockNumber : ℕ
  deriving DecidableEq, Repr

/-- On-chain interactions of a deposit, in source order.  The first two
are read-only RPC calls; the remaining ones submit transactions. -/
inductive DepositEffect
  | rpcDecimals (tokenAddr : String)
  | rpcAllowance (owner spender : String)
  | txApprove (spender : String) (amount : ℤ)
  | txDeposit (tokenAddr : String) (amount : ℤ) (broker : ℕ)
  | txDepositNative (broker : ℕ) (value : String)
  | solanaSend
  deriving DecidableEq, Repr

/-- Whether a deposit effect submits an on-chain transaction (as opposed
to a read-only RPC call). -/
def DepositEffect.isTx : DepositEffect → Bool
  | .txApprove _ _ => true
  | .txDeposit _ _ _ => true
  | .txDepositNative _ _ => true
  | .solanaSend => true
  | _ => false

/-- Whether a deposit effect is an approval transaction. -/
def DepositEffect.isApprove : DepositEffect → Bool
  | .txApprove _ _ => true
  | _ => false

/-- Result of a deposit call: success keeps the transaction identifier;
failures carry the error message in the `handleError` shape. -/
inductive DepResult
  | ok (txHash : String)
  | failure (error : String)
  deriving DecidableEq, Repr

/-- Environment of one deposit call: configured credentials and RPC
endpoints per network, the external ethers address functions, the
on-chain reads (token decimals and current allowance) and the submission
outcomes of the possible transactions.  The Solana branch's base58
keypair decoding and send-and-confirm are folded into `solanaOutcome`. -/
structure DepositEnv where
  configKey : String → String
  configMnemonic : String → String
  derive : String → Except String String
  addrOf : String → String
  getAddress : String → Option String
  rpcUrl : String → Option String
  decimals : ℕ
  allowance : ℤ
  approveOutcome : Except String Unit
  depositOutcome : Except String TxInfo
  nativeOutcome : Except String TxInfo
  solanaOutcome : Except String String

/-- Whether the deposit takes the native-token path (tools.js line 565). -/
def depositIsNative (token networkLower : String) : Bool :=
  match getTokenConfig token networkLower with
  | some tc => tc.type = "native"
  | none => false

/-- Token address the ERC20 deposit path uses (tools.js line 566): the
registry address when the token resolves, the raw caller string
otherwise.  A native registry entry has no address (JS `undefined`); that
value is only ever read on the ERC20 path, where it cannot occur, and is
modelled as the empty string. -/
def depositTokenAddress (token networkLower : String) : String :=
  match getTokenConfig token networkLower with
  | some tc => tc.address.getD ""
  | none => token

/-- `_depositSolana` (tools.js line 1136): registry and support checks
before any I/O, then RPC / key resolution, then the submission whose
outcome (including keypair decoding) the environment supplies. -/
def depositSolana (env : DepositEnv) (token amount : String)
    (privateKey : Option String) : DepResult × List DepositEffect :=
  match getTokenConfig token "solana" with
  | none => (.failure ("Token " ++ token ++ " not supported on Solana"), [])
  | some tc =>
    if tc.type ≠ "native" then
      (.failure "SPL token deposits not yet implemented. Only SOL deposits are currently supported.", [])
    else
      match env.rpcUrl "solana" with
      | none => (.failure "RPC URL not configured for solana. Please set SOLANA_RPC_URL in environment variables", [])
      | some _ =>
        match (getWalletPrivateKey privateKey (env.configKey "solana")
            (env.configMnemonic "solana") env.derive "solana").1 with
        | .error e => (.failure e, [])
        | .ok _ =>
          match env.solanaOutcome with
          | .error e => (.failure e, [.solanaSend])
          | .ok signature => (.ok signature, [.solanaSend])

/-- `deposit` (tools.js line 548), returning the result together with the
ordered trace of on-chain interactions.  Network and amount validation
run before anything external; the EVM ERC20 path reads the token's
decimals, scales the amount, reads the current allowance, submits an
approval for exactly the scaled amount only when the allowance is
strictly below it, and then submits the deposit call with broker 1000. -/
def deposit (env : DepositEnv) (network token amount : String)
    (privateKey : Option String) : DepResult × List DepositEffect :=
  if ¬ validateNetworkB network defaultNetworks then
    (.failure "Invalid network. Must be one of: ethereum, arbitrum, bnb, solana", [])
  else if ¬ validateAmountB amount then
    (.failure "amount must be a positive number", [])
  else
    let networkLower := lowerStr network
    if networkLower = "solana" then depositSolana env token amount privateKey
    else
      match getDepositContract networkLower with
      | .error e => (.failure e, [])
      | .ok depositContract =>
        match env.rpcUrl networkLower with
        | none => (.failure ("RPC URL not configured for " ++ network), [])
        | some _ =>
          match (getWalletPrivateKey privateKey (env.configKey networkLower)
              (env.configMnemonic networkLower) env.derive networkLower).1 with
          | .error e => (.failure e, [])
          | .ok signingKey =>
            if depositIsNative token networkLower then
              match env.nativeOutcome with
              | .error e => (.failure e, [.txDepositNative 1000 amount])
              | .ok tx => (.ok tx.hash, [.txDepositNative 1000 amount])
            else
              match env.getAddress (lowerStr (depositTokenAddress token networkLower)) with
              | none =>
                  (.failure ("invalid address: " ++ depositTokenAddress token networkLower), [])
              | some normalizedTokenAddress =>
                match parseUnits amount env.decimals with
                | none =>
                    (.failure "invalid decimal amount",
                     [.rpcDecimals normalizedTokenAddress])
                | some amountBN =>
                  let reads := [DepositEffect.rpcDecimals normalizedTokenAddress,
                    DepositEffect.rpcAllowance (env.addrOf signingKey) depositContract.address]
                  if env.allowance < amountBN then
                    match env.approveOutcome with
                    | .error e =>
                        (.failure e,
                         reads ++ [.txApprove depositContract.address amountBN])
                    | .ok _ =>
                      match env.depositOutcome with
                      | .error e =>
                          (.failure e, reads ++
                           [.txApprove depositContract.address amountBN,
                            .txDeposit normalizedTokenAddress amountBN 1000])
                      | .ok tx =>
                          (.ok tx.hash, reads ++
                           [.txApprove depositContract.address amountBN,
                            .txDeposit normalizedTokenAddress amountBN 1000])
                  else
                    match env.depositOutcome with
                    | .error e =>
                        (.failure e, reads ++
                         [.txDeposit normalizedTokenAddress amountBN 1000])
                    | .ok tx =>
                        (.ok tx.hash, reads ++
                         [.txDeposit normalizedTokenAddress amountBN 1000])

/-! ### Swap-and-bridge saga (tools.js line 849) -/

/-- Step record pushed into the saga's results.steps; the payload the
source spreads from the sub-operation's success object is kept opaque. -/
structure StepRecord where
  step : ℕ
  action : String
  info : String
  deriving DecidableEq, Repr

/-- Market-buy success payload: the saga reads `executedQty` to size the
withdrawal; the rest of the order object is opaque. -/
structure OrderInfo where
  executedQty : String
  info : String
  deriving DecidableEq, Repr

/-- Outcomes of the three sub-operations the saga invokes.  The saga
sequences the deposit, marketBuy and withdraw methods modelled above; it
inspects only success/failure, the order's executedQty and the success
payloads it copies into its trace, so the outcomes are supplied
abstractly here. -/
structure SagaEnv where
  depositResult : Except String String
  swapResult : Except String OrderInfo
  withdrawResult : Except String String

/-- Sub-operation invocations the saga makes, in order, with their
arguments. -/
inductive SagaCall
  | deposit (network token amount : String)
  | marketBuy (symbol quoteAmount : String)
  | withdrawCall (network token amount toAddress : String)
  deriving DecidableEq, Repr

/-- Saga result: full success with the three step records, or the failure
message, the identifier of the failed step and (except for a deposit-step
failure, where the source returns no partialResults field) the trace of
already-completed steps. -/
inductive SagaResult
  | ok (steps : List StepRecord)
  | fail (error : String) (failedAt : String) (partialSteps : Option (List StepRecord))
  deriving DecidableEq, Repr

/-- `swapAndBridge` (tools.js line 849): deposit, market buy of the
targetToken+fromToken pair with the same amount, then withdraw of the
bought quantity to the destination, strictly in that order; each failing
step halts the saga immediately and reports which step failed plus the
completed-step trace; nothing is ever rolled back.  The fixed settlement
delays (5 s and 3 s) are pure timing and leave no observable trace
here. -/
def swapAndBridge (env : SagaEnv)
    (fromNetwork fromToken fromAmount targetToken toNetwork toAddress : String) :
    SagaResult × List SagaCall :=
  match env.depositResult with
  | .error e =>
      (.fail ("Deposit failed: " ++ e) "deposit" none,
       [.deposit fromNetwork fromToken fromAmount])
  | .ok dep =>
    let steps₁ : List StepRecord := [⟨1, "deposit", dep⟩]
    let tradingPair := upperStr (targetToken ++ fromToken)
    match env.swapResult with
    | .error e =>
        (.fail ("Swap failed: " ++ e) "swap" (some steps₁),
         [.deposit fromNetwork fromToken fromAmount,
          .marketBuy tradingPair fromAmount])
    | .ok order =>
      let steps₂ := steps₁ ++ [⟨2, "swap", order.info⟩]
      let withdrawAmount := order.executedQty
      match env.withdrawResult with
      | .error e =>
          (.fail ("Withdrawal failed: " ++ e) "withdraw" (some steps₂),
           [.deposit fromNetwork fromToken fromAmount,
            .marketBuy tradingPair fromAmount,
            .withdrawCall toNetwork targetToken withdrawAmount toAddress])
      | .ok wd =>
          (.ok (steps₂ ++ [⟨3, "withdraw", wd⟩]),
           [.deposit fromNetwork fromToken fromAmount,
            .marketBuy tradingPair fromAmount,
            .withdrawCall toNetwork targetToken withdrawAmount toAddress])

/-! ### Concrete environments used by witnesses -/

/-- Concrete withdraw environment for witnesses. -/
def sampleWEnv : WithdrawEnv :=
  { configKey := fun _ => ""
    configMnemonic := fun _ => ""
    derive := fun _ => .error "no mnemonic"
    addrOf := fun _ => "0xabc"
    getAddress := fun s => some s
    feeQuote := fun _ _ => .ok "0.1"
    signTyped := fun _ => "0xsig"
    baseUrl := "https://sapi.asterdex.com"
    apiKey := "key"
    apiSecret := "secret"
    recvWindow := 5000
    ext := { enc := id, hmacSha256 := fun q _ => q, now := 1700000000000,
             transport := fun _ => .ok "accepted" "hdrs" } }

/-- Concrete deposit environment for witnesses. -/
def sampleDEnv : DepositEnv :=
  { configKey := fun _ => ""
    configMnemonic := fun _ => ""
    derive := fun _ => .error "no mnemonic"
    addrOf := fun _ => "0xowner"
    getAddress := fun s => some s
    rpcUrl := fun _ => some "https://rpc.example"
    decimals := 18
    allowance := 10 ^ 20
    approveOutcome := .ok ()
    depositOutcome := .ok ⟨"0xdeptx", 100⟩
    nativeOutcome := .ok ⟨"0xnativetx", 101⟩
    solanaOutcome := .ok "solsig" }

/-- Concrete saga environment for the C1 witness: deposit succeeds, the
market buy fails. -/
def sampleSagaEnv : SagaEnv :=
  { depositResult := .ok "deposit-step-info"
    swapResult := .error "insufficient balance"
    withdrawResult := .ok "unused" }

/-! ## Theorems -/

theorem leBytes_length (k v : ℕ) : (leBytes k v).length = k := by
  induction k generalizing v with
  | zero => rfl
  | succ k ih => simp [leBytes, ih]

theorem mod_mul_div_mod (a c : ℕ) : a % 256 + 256 * (a / 256 % c) = a % (256 * c) := by
  rcases Nat.eq_zero_or_pos c with hc | hc
  · subst hc; simp [Nat.mod_zero, Nat.mod_add_div]
  · have h1 : a % 256 + 256 * (a / 256 % c) =
        (a % 256 + 256 * (a / 256 % c)) % (256 * c) := by
      have hlt : a % 256 + 256 * (a / 256 % c) < 256 * c := by
        have h2 : a % 256 < 256 := Nat.mod_lt _ (by norm_num)
        have h3 : a / 256 % c < c := Nat.mod_lt _ hc
        calc a % 256 + 256 * (a / 256 % c) < 256 + 256 * (a / 256 % c) := by omega
          _ ≤ 256 * c := by nlinarith
      exact (Nat.mod_eq_of_lt hlt).symm
    rw [h1]
    have h4 : a = a % 256 + 256 * (a / 256 % c) + (256 * c) * (a / 256 / c) := by
      have e1 : a / 256 % c + c * (a / 256 / c) = a / 256 := Nat.mod_add_div _ _
      have e2 : a % 256 + 256 * (a / 256) = a := Nat.mod_add_div _ _
      nlinarith [e1, e2]
    conv_rhs => rw [h4]
    rw [Nat.add_mul_mod_self_left]

theorem fromLeBytes_leBytes (k v : ℕ) : fromLeBytes (leBytes k v) = v % 256 ^ k := by
  induction k generalizing v with
  | zero => simp [leBytes, fromLeBytes, Nat.mod_one]
  | succ k ih =>
    simp only [leBytes, fromLeBytes, ih]
    rw [pow_succ, mul_comm (256 ^ k) 256, mod_mul_div_mod]

/-- C2: for every broker id below 2^56 and every lamport amount below 2^64,
the encoder produces exactly 16 bytes whose byte 0 is the opcode 0x6c, and
decoding recovers the broker id (64-bit little-endian word at offset 0
shifted right by 8) and the amount (64-bit little-endian word at offset 8)
exactly: decode after encode is the identity on the pair. -/
theorem deposit_instruction_roundtrip (B L : ℕ) (hB : B < 2 ^ 56) (hL : L < 2 ^ 64) :
    (buildDepositInstructionDataWith B L).length = 16 ∧
    (buildDepositInstructionDataWith B L).headD 0 = 0x6c ∧
    decodeInstructionData (buildDepositInstructionDataWith B L) =
      some ⟨0x6c, B, L⟩ := by
  have hlen1 : (leBytes 8 (B * 256 + DEPOSIT_DISCRIMINATOR)).length = 8 := leBytes_length 8 _
  have hlen2 : (leBytes 8 L).length = 8 := leBytes_length 8 _
  have hlen : (buildDepositInstructionDataWith B L).length = 16 := by
    simp [buildDepositInstructionDataWith, hlen1, hlen2]
  have hhead : (buildDepositInstructionDataWith B L).headD 0 = 0x6c := by
    simp only [buildDepositInstructionDataWith, leBytes, DEPOSIT_DISCRIMINATOR]
    simp only [List.cons_append, List.headD_cons]
    omega
  refine ⟨hlen, hhead, ?_⟩
  have htake : (buildDepositInstructionDataWith B L).take 8 =
      leBytes 8 (B * 256 + DEPOSIT_DISCRIMINATOR) := by
    simpa [buildDepositInstructionDataWith] using
      List.take_left' hlen1
  have hdrop : (buildDepositInstructionDataWith B L).drop 8 = leBytes 8 L := by
    simpa [buildDepositInstructionDataWith] using
      List.drop_left' hlen1
  have hfull : fromLeBytes ((buildDepositInstructionDataWith B L).take 8) =
      B * 256 + DEPOSIT_DISCRIMINATOR := by
    rw [htake, fromLeBytes_leBytes]
    have : B * 256 + DEPOSIT_DISCRIMINATOR < 256 ^ 8 := by
      simp only [DEPOSIT_DISCRIMINATOR]; norm_num at hB ⊢; omega
    exact Nat.mod_eq_of_lt this
  have hamount : fromLeBytes (((buildDepositInstructionDataWith B L).drop 8).take 8) =
      L := by
    rw [hdrop]
    have : (leBytes 8 L).take 8 = leBytes 8 L := List.take_of_length_le (by rw [hlen2])
    rw [this, fromLeBytes_leBytes]
    have : L < 256 ^ 8 := by norm_num at hL ⊢; omega
    exact Nat.mod_eq_of_lt this
  have hbroker : (B * 256 + DEPOSIT_DISCRIMINATOR) / 256 = B := by
    simp only [DEPOSIT_DISCRIMINATOR]; omega
  simp only [decodeInstructionData, hlen]
  simp only [if_neg (by omega : ¬ (16 : ℕ) ≠ 16)]
  rw [hfull, hamount, hhead, hbroker]

/-- Witness for C2 at the source's own broker id and one lamport amount. -/
theorem deposit_instruction_roundtrip_witness :
    BROKER_ID < 2 ^ 56 ∧ (1000000000 : ℕ) < 2 ^ 64 ∧
    decodeInstructionData (buildDepositInstructionDataWith BROKER_ID 1000000000) =
      some ⟨0x6c, BROKER_ID, 1000000000⟩ :=
  ⟨by norm_num [BROKER_ID], by norm_num,
    (deposit_instruction_roundtrip BROKER_ID 1000000000 (by norm_num [BROKER_ID])
      (by norm_num)).2.2⟩

theorem mem_of_getField_eq_some {k : String} {v : PValue}
    {l : List (String × PValue)} (h : getField k l = some v) : (k, v) ∈ l := by
  induction l with
  | nil => simp [getField] at h
  | cons p rest ih =>
    obtain ⟨k₁, v₁⟩ := p
    by_cases hk : k₁ = k
    · subst hk
      simp [getField] at h
      simp [h]
    · simp [getField, hk] at h
      exact List.mem_cons_of_mem _ (ih h)

theorem getField_eq_some_of_mem {k : String} {v : PValue}
    {l : List (String × PValue)} (hnd : (l.map Prod.fst).Nodup)
    (hmem : (k, v) ∈ l) : getField k l = some v := by
  induction l with
  | nil => simp at hmem
  | cons p rest ih =>
    obtain ⟨k₁, v₁⟩ := p
    simp only [List.map_cons, List.nodup_cons] at hnd
    rcases List.mem_cons.mp hmem with he | hm
    · obtain ⟨hk, hv⟩ := Prod.ext_iff.mp he
      subst hk; subst hv
      simp [getField]
    · have hk : k₁ ≠ k := by
        intro hk
        exact hnd.1 (hk ▸ (List.mem_map.mpr ⟨(k, v), hm, rfl⟩))
      simp only [getField, if_neg hk]
      exact ih hnd.2 hm

theorem getField_eq_none_iff {k : String} {l : List (String × PValue)} :
    getField k l = none ↔ k ∉ l.map Prod.fst := by
  induction l with
  | nil => simp [getField]
  | cons p rest ih =>
    obtain ⟨k₁, v₁⟩ := p
    by_cases hk : k₁ = k
    · subst hk; simp [getField]
    · simp [getField, hk, ih, Ne.symm hk]

/-- Reading a key is invariant under permutation of a JS object's
key-value pairs, given that keys are unique. -/
theorem getField_perm {l₁ l₂ : List (String × PValue)} (h : l₁.Perm l₂)
    (hnd : (l₁.map Prod.fst).Nodup) (k : String) :
    getField k l₁ = getField k l₂ := by
  have hnd₂ : (l₂.map Prod.fst).Nodup := ((h.map Prod.fst).nodup_iff).mp hnd
  cases e : getField k l₁ with
  | none =>
    have hk : k ∉ l₁.map Prod.fst := getField_eq_none_iff.mp e
    have hk₂ : k ∉ l₂.map Prod.fst := fun hm => hk ((h.map Prod.fst).mem_iff.mpr hm)
    exact (getField_eq_none_iff.mpr hk₂).symm
  | some v =>
    have hm : (k, v) ∈ l₂ := h.mem_iff.mp (mem_of_getField_eq_some e)
    exact (getField_eq_some_of_mem hnd₂ hm).symm

/-- Sorting is determined by the multiset of keys: two permuted key lists
produce the same sorted list. -/
theorem insertionSort_perm_eq {l₁ l₂ : List String} (h : l₁.Perm l₂) :
    l₁.insertionSort (· ≤ ·) = l₂.insertionSort (· ≤ ·) :=
  List.eq_of_perm_of_sorted
    ((List.perm_insertionSort _ l₁).trans (h.trans (List.perm_insertionSort _ l₂).symm))
    (List.sorted_insertionSort _ l₁) (List.sorted_insertionSort _ l₂)

/-- C4: the canonical query string is identical for any two permutations
of the same parameter map, and therefore the HMAC-SHA256 signature over
it with any fixed secret is identical as well. -/
theorem buildQueryString_perm_invariant (enc : String → String)
    (hmacSha256 : String → String → String) (secret : String)
    (l₁ l₂ : List (String × PValue)) (hperm : l₁.Perm l₂)
    (hnd : (l₁.map Prod.fst).Nodup) :
    buildQueryString enc l₁ = buildQueryString enc l₂ ∧
    generateHmacSignature hmacSha256 (buildQueryString enc l₁) secret =
      generateHmacSignature hmacSha256 (buildQueryString enc l₂) secret := by
  have hq : buildQueryString enc l₁ = buildQueryString enc l₂ := by
    unfold buildQueryString
    rw [insertionSort_perm_eq (hperm.map Prod.fst)]
    have hfun : (fun key => enc key ++ "=" ++
          enc (((getField key l₁).map PValue.toStr).getD "undefined")) =
        (fun key => enc key ++ "=" ++
          enc (((getField key l₂).map PValue.toStr).getD "undefined")) := by
      funext key
      rw [getField_perm hperm hnd key]
    rw [hfun]
  exact ⟨hq, by rw [generateHmacSignature, generateHmacSignature, hq]⟩

/-- Witness for C4 on a concrete two-key map supplied in both orders. -/
theorem buildQueryString_perm_invariant_witness :
    buildQueryString id [("b", PValue.str "2"), ("a", PValue.str "1")] =
      buildQueryString id [("a", PValue.str "1"), ("b", PValue.str "2")] :=
  (buildQueryString_perm_invariant id (fun q _ => q) "secret"
    [("b", PValue.str "2"), ("a", PValue.str "1")]
    [("a", PValue.str "1"), ("b", PValue.str "2")]
    (by decide) (by decide)).1

/-- C3: strict three-tier priority with no merging: a present (non-empty)
explicit key is returned unchanged with no derivation; otherwise a
non-empty configured key is returned with no derivation; otherwise a
configured mnemonic causes exactly one derivation whose result is
returned; otherwise the function fails with a no-credentials error
without deriving. -/
theorem getWalletPrivateKey_priority (u : Option String) (c m net : String)
    (derive : String → Except String String) :
    ((u.getD "") ≠ "" →
      getWalletPrivateKey u c m derive net = (.ok (u.getD ""), 0)) ∧
    ((u.getD "") = "" → c ≠ "" →
      getWalletPrivateKey u c m derive net = (.ok c, 0)) ∧
    ((u.getD "") = "" → c = "" → m ≠ "" →
      (getWalletPrivateKey u c m derive net).2 = 1 ∧
      (∀ k, derive m = .ok k → (getWalletPrivateKey u c m derive net).1 = .ok k)) ∧
    ((u.getD "") = "" → c = "" → m = "" →
      (getWalletPrivateKey u c m derive net).2 = 0 ∧
      ∃ e, (getWalletPrivateKey u c m derive net).1 = .error e) := by
  refine ⟨fun hu => ?_, fun hu hc => ?_, fun hu hc hm => ?_, fun hu hc hm => ?_⟩
  · simp [getWalletPrivateKey, hu]
  · simp [getWalletPrivateKey, hu, hc]
  · constructor
    · simp only [getWalletPrivateKey, hu, hc, hm]
      simp only [ne_eq, not_true_eq_false, if_false, if_pos hm]
      cases derive m <;> simp
    · intro k hk
      simp only [getWalletPrivateKey, hu, hc, hm]
      simp only [ne_eq, not_true_eq_false, if_false, if_pos hm, hk]
  · simp [getWalletPrivateKey, hu, hc, hm]

/-- Witness for C3: tier 1 wins when all tiers are present, and the
mnemonic tier derives exactly once. -/
theorem getWalletPrivateKey_priority_witness :
    getWalletPrivateKey (some "0xUSER") "0xCFG" "seed phrase"
      (fun m => .ok ("derived-" ++ m)) "ethereum" = (.ok "0xUSER", 0) ∧
    (getWalletPrivateKey none "" "seed phrase"
      (fun m => .ok ("derived-" ++ m)) "ethereum").2 = 1 :=
  ⟨(getWalletPrivateKey_priority (some "0xUSER") "0xCFG" "seed phrase" "ethereum"
      (fun m => .ok ("derived-" ++ m))).1 (by decide),
   ((getWalletPrivateKey_priority none "" "seed phrase" "ethereum"
      (fun m => .ok ("derived-" ++ m))).2.2.1 (by decide) rfl (by decide)).1⟩

theorem getField_setField_self (k : String) (v : PValue) (l : List (String × PValue)) :
    getField k (setField k v l) = some v := by
  induction l with
  | nil => simp [setField, getField]
  | cons p rest ih =>
    obtain ⟨k₁, v₁⟩ := p
    by_cases hk : k₁ = k
    · simp [setField, hk, getField]
    · simp [setField, hk, getField, ih]

theorem getField_setField_ne (k k₁ : String) (v : PValue)
    (l : List (String × PValue)) (h : k₁ ≠ k) :
    getField k (setField k₁ v l) = getField k l := by
  induction l with
  | nil => simp [setField, getField, h]
  | cons p rest ih =>
    obtain ⟨k₂, v₂⟩ := p
    by_cases hk : k₂ = k₁
    · subst hk
      simp [setField, getField, h]
    · by_cases hk₂ : k₂ = k
      · subst hk₂
        simp [setField, hk, getField, Ne.symm h]
      · simp [setField, hk, getField, hk₂, ih]

/-- C5 counterexample: with the API key absent, the signed request does
fail before the transport is invoked, but the failure is delivered through
the same networkError variant that a genuine transport failure produces —
the claimed disjoint MissingCredentialsError result kind does not exist in
the code, which distinguishes the two cases only by message text. -/
theorem makeApiRequest_missing_creds_counterexample :
    (makeApiRequest
      { baseUrl := "https://sapi.asterdex.com", endpoint := "/api/v1/account",
        method := "GET", params := [], signed := true, apiKey := "",
        apiSecret := "secret", recvWindow := 5000 }
      { enc := id, hmacSha256 := fun q _ => q, now := 1700000000000,
        transport := fun _ => .ok "body" "headers" }).response =
      ApiResponse.networkError missingCredentialsMsg ∧
    (makeApiRequest
      { baseUrl := "https://sapi.asterdex.com", endpoint := "/api/v1/account",
        method := "GET", params := [], signed := true, apiKey := "key",
        apiSecret := "secret", recvWindow := 5000 }
      { enc := id, hmacSha256 := fun q _ => q, now := 1700000000000,
        transport := fun _ => .netFail "connection refused" }).response =
      ApiResponse.networkError "connection refused" := by
  exact ⟨rfl, rfl⟩

/-- C5 amended: for every signed request with a missing (empty) key or
secret, the request function fails immediately — the HTTP transport is
never invoked — and the result is the network-error variant carrying the
fixed missing-credentials message, distinguishable from a transport
failure only by that message, not by a distinct result kind. -/
theorem makeApiRequest_missing_creds (opts : ApiOptions) (ext : Externals)
    (hs : opts.signed = true) (hk : opts.apiKey = "" ∨ opts.apiSecret = "") :
    makeApiRequest opts ext =
      ⟨.networkError missingCredentialsMsg, false, opts.params⟩ := by
  unfold makeApiRequest
  rw [if_pos]
  exact ⟨hs, hk⟩

/-- Witness for the amended C5 at a concrete signed request with an empty
API key. -/
theorem makeApiRequest_missing_creds_witness :
    makeApiRequest
      { baseUrl := "https://sapi.asterdex.com", endpoint := "/api/v1/order",
        method := "POST", params := [("symbol", PValue.str "ASTERUSDT")],
        signed := true, apiKey := "", apiSecret := "", recvWindow := 5000 }
      { enc := id, hmacSha256 := fun q _ => q, now := 1700000000000,
        transport := fun _ => .ok "body" "headers" } =
      ⟨.networkError missingCredentialsMsg, false, [("symbol", PValue.str "ASTERUSDT")]⟩ :=
  makeApiRequest_missing_creds _ _ rfl (Or.inl rfl)

/-- C9 counterexample: a caller-supplied timestamp entry with the value 0
is falsy in JS, so the request function replaces it with a fresh clock
value instead of keeping the caller's entry. -/
theorem timestamp_overwritten_counterexample :
    getField "timestamp"
        (buildRequestParams [("timestamp", PValue.num 0)] true 5 5000) =
      some (PValue.num 5) ∧
    some (PValue.num 5) ≠ some (PValue.num 0) := by
  exact ⟨rfl, by decide⟩

/-- The parsed value is positive exactly when its mantissa is. -/
theorem pfloatVal_pos_iff (p : ℤ × ℕ) : 0 < pfloatVal p ↔ 0 < p.1 := by
  unfold pfloatVal
  rw [lt_div_iff (by positivity : (0 : ℚ) < 10 ^ p.2)]
  simp

/-- The parsed value is below one exactly when its mantissa is below the
scale's power of ten. -/
theorem pfloatVal_lt_one_iff (p : ℤ × ℕ) : pfloatVal p < 1 ↔ p.1 < 10 ^ p.2 := by
  unfold pfloatVal
  rw [div_lt_one (by positivity : (0 : ℚ) < 10 ^ p.2)]
  exact_mod_cast Iff.rfl

/-- A withdraw that passes validation, the stablecoin floor and key
resolution always reaches the fee quote, whatever the fee, signing and
API outcomes. -/
theorem withdraw_reaches_feeQuote (env : WithdrawEnv)
    (network token amount : String) (toAddress : Option String) (pk : String)
    (hnet : validateNetworkB network ["ethereum", "arbitrum", "bnb"] = true)
    (hamt : validateAmountB amount = true)
    (hfloor : stablecoinFloorReject (upperStr token) amount = false)
    (hpk : pk ≠ "") :
    WithdrawEffect.feeQuote token network ∈
      (withdraw env network token amount toAddress (some pk)).2 := by
  have hkey : (getWalletPrivateKey (some pk) (env.configKey (lowerStr network))
      (env.configMnemonic (lowerStr network)) env.derive (lowerStr network)).1 = .ok pk := by
    simp [getWalletPrivateKey, hpk]
  unfold withdraw
  simp only [hnet, hamt, hfloor, hkey, not_true_eq_false, Bool.false_eq_true,
    if_false, ite_false]
  split
  · simp
  · split
    · simp
    · split <;> simp

/-- C7: a stablecoin-class withdrawal whose parsed amount is strictly
below 1 is rejected with the minimum-amount error before any fee quote or
signature is attempted (empty effect trace); for a token outside the
stablecoin set, an amount of "0.5" passes this floor and the operation
proceeds to the fee quote. -/
theorem withdraw_stablecoin_floor (env : WithdrawEnv) (network token : String)
    (toAddress : Option String)
    (hnet : validateNetworkB network ["ethereum", "arbitrum", "bnb"] = true) :
    (∀ (amount : String) (privateKey : Option String) (p : ℤ × ℕ),
        stablecoins.contains (upperStr token) = true →
        parseFloat amount = some p → 0 < pfloatVal p → pfloatVal p < 1 →
        withdraw env network token amount toAddress privateKey =
          (.failure (stablecoinFloorMsg (upperStr token) amount), [])) ∧
    (∀ pk : String, stablecoins.contains (upperStr token) = false → pk ≠ "" →
        WithdrawEffect.feeQuote token network ∈
          (withdraw env network token "0.5" toAddress (some pk)).2) := by
  constructor
  · intro amount privateKey p hstable hparse hpos hlt
    have hamt : validateAmountB amount = true := by
      unfold validateAmountB
      rw [hparse]
      exact decide_eq_true ((pfloatVal_pos_iff p).mp hpos)
    have hfloor : stablecoinFloorReject (upperStr token) amount = true := by
      unfold stablecoinFloorReject
      rw [hparse, hstable]
      simp [(pfloatVal_lt_one_iff p).mp hlt]
    unfold withdraw
    simp [hnet, hamt, hfloor]
  · intro pk hstable hpk
    have hamt : validateAmountB "0.5" = true := by decide
    have hfloor : stablecoinFloorReject (upperStr token) "0.5" = false := by
      unfold stablecoinFloorReject
      rw [hstable]
      simp
    exact withdraw_reaches_feeQuote env network token "0.5" toAddress pk hnet hamt hfloor hpk

/-- Witness for C7: a 0.5 USDT withdrawal is floor-rejected with an empty
trace, and a 0.5 ASTER withdrawal reaches the fee quote. -/
theorem withdraw_stablecoin_floor_witness :
    withdraw sampleWEnv "bnb" "usdt" "0.5" none none =
      (.failure (stablecoinFloorMsg "USDT" "0.5"), []) ∧
    WithdrawEffect.feeQuote "aster" "bnb" ∈
      (withdraw sampleWEnv "bnb" "aster" "0.5" none (some "0xkey")).2 :=
  ⟨(withdraw_stablecoin_floor sampleWEnv "bnb" "usdt" none (by decide)).1
      "0.5" none (5, 1) (by decide) (by decide)
      ((pfloatVal_pos_iff (5, 1)).mpr (by decide))
      ((pfloatVal_lt_one_iff (5, 1)).mpr (by decide)),
   (withdraw_stablecoin_floor sampleWEnv "bnb" "aster" none (by decide)).2
      "0xkey" (by decide) (by decide)⟩

theorem buildRequestParams_getField_ne (params : List (String × PValue))
    (signed : Bool) (now recv : ℕ) (k : String)
    (hk1 : k ≠ "timestamp") (hk2 : k ≠ "recvWindow") :
    getField k (buildRequestParams params signed now recv) = getField k params := by
  unfold buildRequestParams
  cases signed with
  | false => simp
  | true =>
    simp only [if_true]
    by_cases h1 : truthyPV (getField "timestamp" params)
    · by_cases h2 : truthyPV (getField "recvWindow" params)
      · simp [h1, h2]
      · simp [h1, h2, getField_setField_ne _ _ _ _ (Ne.symm hk2)]
    · by_cases h2 : truthyPV
          (getField "recvWindow" (setField "timestamp" (PValue.num now) params))
      · simp [h1, h2, getField_setField_ne _ _ _ _ (Ne.symm hk1)]
      · simp [h1, h2, getField_setField_ne _ _ _ _ (Ne.symm hk2),
          getField_setField_ne _ _ _ _ (Ne.symm hk1)]

theorem buildRequestParams_timestamp (params : List (String × PValue))
    (now recv : ℕ) :
    getField "timestamp" (buildRequestParams params true now recv) =
      (if truthyPV (getField "timestamp" params) then getField "timestamp" params
       else some (.num now)) := by
  unfold buildRequestParams
  simp only [if_true]
  by_cases h1 : truthyPV (getField "timestamp" params)
  · by_cases h2 : truthyPV (getField "recvWindow" params)
    · simp [h1, h2]
    · simp [h1, h2, getField_setField_ne _ _ _ _ (by decide : "recvWindow" ≠ "timestamp")]
  · by_cases h2 : truthyPV
        (getField "recvWindow" (setField "timestamp" (PValue.num now) params))
    · simp [h1, h2, getField_setField_self]
    · simp [h1, h2,
        getField_setField_ne _ _ _ _ (by decide : "recvWindow" ≠ "timestamp"),
        getField_setField_self]

theorem makeApiRequest_params_spec (opts : ApiOptions) (ext : Externals) :
    (makeApiRequest opts ext).requestParams =
      (if opts.signed ∧ (opts.apiKey = "" ∨ opts.apiSecret = "") then opts.params
       else buildRequestParams opts.params opts.signed ext.now opts.recvWindow) := by
  unfold makeApiRequest
  split
  · rfl
  · dsimp only
    repeat' split
    all_goals rfl

theorem withdrawParamsList_getFields (chainId tokenU amount fee receiver sig : String)
    (nonce timestamp : ℕ) :
    getField "timestamp"
        (withdrawParamsList chainId tokenU amount fee receiver nonce sig timestamp) =
      some (.num timestamp) ∧
    getField "nonce"
        (withdrawParamsList chainId tokenU amount fee receiver nonce sig timestamp) =
      some (.str (toString nonce)) ∧
    getField "destination"
        (withdrawParamsList chainId tokenU amount fee receiver nonce sig timestamp) =
      none ∧
    getField "receiver"
        (withdrawParamsList chainId tokenU amount fee receiver nonce sig timestamp) =
      some (.str receiver) :=
  ⟨rfl, rfl, rfl, rfl⟩

/-- The target address `generateEIP712Signature` normalizes coincides with
the destination withdraw resolves: when the resolved destination is empty
the receiver it falls back to is empty as well. -/
theorem withdrawDestination_target (toAddress : Option String) (receiver : String) :
    (if withdrawDestination toAddress receiver ≠ "" then
      withdrawDestination toAddress receiver else receiver) =
      withdrawDestination toAddress receiver := by
  unfold withdrawDestination
  cases toAddress with
  | none => split <;> simp_all
  | some a =>
    by_cases h : a = ""
    · simp only [h]
      split <;> simp_all
    · simp [h]

/-- Projection facts about a withdraw that runs to the API call: exactly
one EIP-712 value is signed, with the checksummed resolved destination;
exactly one API call is issued, whose parameter map carries the clock
value as timestamp, the microsecond nonce (timestamp × 1000), the
receiver, and no destination key. -/
theorem withdraw_trace_projections (env : WithdrawEnv)
    (network token amount : String) (toAddress : Option String) (pk fee nd : String)
    (hnet : validateNetworkB network ["ethereum", "arbitrum", "bnb"] = true)
    (hamt : validateAmountB amount = true)
    (hfloor : stablecoinFloorReject (upperStr token) amount = false)
    (hpk : pk ≠ "") (hnow : env.ext.now ≠ 0)
    (hfee : env.feeQuote token network = .ok fee)
    (hga : env.getAddress
      (lowerStr (withdrawDestination toAddress (env.addrOf pk))) = some nd) :
    (signedValues (withdraw env network token amount toAddress (some pk)).2).map
        TypedValue.destination = [nd] ∧
    ∃ out, apiOuts (withdraw env network token amount toAddress (some pk)).2 = [out] ∧
      getField "timestamp" out.requestParams = some (.num env.ext.now) ∧
      getField "nonce" out.requestParams =
        some (.str (toString (env.ext.now * 1000))) ∧
      getField "destination" out.requestParams = none ∧
      getField "receiver" out.requestParams = some (.str (env.addrOf pk)) := by
  have hkey : (getWalletPrivateKey (some pk) (env.configKey (lowerStr network))
      (env.configMnemonic (lowerStr network)) env.derive (lowerStr network)).1 =
      .ok pk := by
    simp [getWalletPrivateKey, hpk]
  have hsig : generateEIP712Signature env.getAddress env.signTyped
      (chainIdMap (lowerStr network))
      (withdrawDestination toAddress (env.addrOf pk)) (env.addrOf pk)
      (upperStr token) amount fee (env.ext.now * 1000) =
      .ok (env.signTyped
        { type := "Withdraw", destination := nd,
          destinationChain := (chainNames (chainIdMap (lowerStr network))).getD "ETH",
          token := upperStr token, amount := amount, fee := fee,
          nonce := env.ext.now * 1000, asterChain := "Mainnet" },
        { type := "Withdraw", destination := nd,
          destinationChain := (chainNames (chainIdMap (lowerStr network))).getD "ETH",
          token := upperStr token, amount := amount, fee := fee,
          nonce := env.ext.now * 1000, asterChain := "Mainnet" }) := by
    unfold generateEIP712Signature
    dsimp only
    rw [withdrawDestination_target, hga]
  have hout : ∀ (opts : ApiOptions), opts.params =
      withdrawParamsList (chainIdMap (lowerStr network)) (upperStr token) amount
        fee (env.addrOf pk) (env.ext.now * 1000)
        (env.signTyped
          { type := "Withdraw", destination := nd,
            destinationChain := (chainNames (chainIdMap (lowerStr network))).getD "ETH",
            token := upperStr token, amount := amount, fee := fee,
            nonce := env.ext.now * 1000, asterChain := "Mainnet" })
        env.ext.now →
      getField "timestamp" (makeApiRequest opts env.ext).requestParams =
          some (.num env.ext.now) ∧
        getField "nonce" (makeApiRequest opts env.ext).requestParams =
          some (.str (toString (env.ext.now * 1000))) ∧
        getField "destination" (makeApiRequest opts env.ext).requestParams = none ∧
        getField "receiver" (makeApiRequest opts env.ext).requestParams =
          some (.str (env.addrOf pk)) := by
    intro opts hparams
    obtain ⟨w1, w2, w3, w4⟩ := withdrawParamsList_getFields
      (chainIdMap (lowerStr network)) (upperStr token) amount fee
      (env.addrOf pk)
      (env.signTyped
        { type := "Withdraw", destination := nd,
          destinationChain := (chainNames (chainIdMap (lowerStr network))).getD "ETH",
          token := upperStr token, amount := amount, fee := fee,
          nonce := env.ext.now * 1000, asterChain := "Mainnet" })
      (env.ext.now * 1000) env.ext.now
    rw [makeApiRequest_params_spec]
    split
    · rw [hparams]
      exact ⟨w1, w2, w3, w4⟩
    · rw [hparams]
      have ht : getField "timestamp"
          (buildRequestParams (withdrawParamsList (chainIdMap (lowerStr network))
            (upperStr token) amount fee (env.addrOf pk) (env.ext.now * 1000)
            (env.signTyped
              { type := "Withdraw", destination := nd,
                destinationChain := (chainNames (chainIdMap (lowerStr network))).getD "ETH",
                token := upperStr token, amount := amount, fee := fee,
                nonce := env.ext.now * 1000, asterChain := "Mainnet" })
            env.ext.now) opts.signed env.ext.now opts.recvWindow) =
          some (.num env.ext.now) := by
        cases hs : opts.signed with
        | false => exact w1
        | true =>
          rw [buildRequestParams_timestamp, w1, ite_self]
      refine ⟨ht, ?_, ?_, ?_⟩
      · rw [buildRequestParams_getField_ne _ opts.signed env.ext.now opts.recvWindow
            "nonce" (by decide) (by decide)]
        exact w2
      · rw [buildRequestParams_getField_ne _ opts.signed env.ext.now opts.recvWindow
            "destination" (by decide) (by decide)]
        exact w3
      · rw [buildRequestParams_getField_ne _ opts.signed env.ext.now opts.recvWindow
            "receiver" (by decide) (by decide)]
        exact w4
  unfold withdraw
  simp only [hnet, hamt, hfloor, hkey, hfee, hsig, not_true_eq_false,
    Bool.false_eq_true, if_false, ite_false]
  have hproj := hout
    { baseUrl := env.baseUrl, endpoint := "/api/v1/aster/user-withdraw",
      method := "POST",
      params := withdrawParamsList (chainIdMap (lowerStr network)) (upperStr token)
        amount fee (env.addrOf pk) (env.ext.now * 1000)
        (env.signTyped
          { type := "Withdraw", destination := nd,
            destinationChain := (chainNames (chainIdMap (lowerStr network))).getD "ETH",
            token := upperStr token, amount := amount, fee := fee,
            nonce := env.ext.now * 1000, asterChain := "Mainnet" })
        env.ext.now,
      signed := true, apiKey := env.apiKey, apiSecret := env.apiSecret,
      recvWindow := env.recvWindow } rfl
  split
  all_goals
    exact ⟨by simp [signedValues, List.filterMap], _,
      by simp [apiOuts, List.filterMap],
      hproj.1, hproj.2.1, hproj.2.2.1, hproj.2.2.2⟩

/-- C9 amended: for every signed request whose parameter map already holds
a truthy timestamp entry (a non-zero number or non-empty string — the code
tests JS truthiness, so a caller timestamp of 0 is replaced rather than
kept) the request client keeps the caller's value, and it injects a fresh
epoch-milliseconds clock value exactly when the caller's entry is absent
or falsy; the withdraw operation supplies its own truthy timestamp t and
a nonce computed as t × 1000 from the same reading, so its signed request
carries timestamp t and nonce = t × 1000 exactly. -/
theorem signed_timestamp_and_nonce (params : List (String × PValue))
    (signed : Bool) (now recvWindow : ℕ) (env : WithdrawEnv)
    (network token amount dst pk fee nd : String) :
    (truthyPV (getField "timestamp" params) = true →
      getField "timestamp" (buildRequestParams params signed now recvWindow) =
        getField "timestamp" params) ∧
    (truthyPV (getField "timestamp" params) = false →
      getField "timestamp" (buildRequestParams params true now recvWindow) =
        some (.num now)) ∧
    (validateNetworkB network ["ethereum", "arbitrum", "bnb"] = true →
      validateAmountB amount = true →
      stablecoinFloorReject (upperStr token) amount = false →
      pk ≠ "" → env.ext.now ≠ 0 →
      env.feeQuote token network = .ok fee →
      env.getAddress (lowerStr (withdrawDestination (some dst) (env.addrOf pk))) =
        some nd →
      ∃ out, apiOuts (withdraw env network token amount (some dst) (some pk)).2 =
          [out] ∧
        getField "timestamp" out.requestParams = some (.num env.ext.now) ∧
        getField "nonce" out.requestParams =
          some (.str (toString (env.ext.now * 1000)))) := by
  refine ⟨?_, ?_, ?_⟩
  · intro h
    cases signed with
    | false => rfl
    | true =>
      rw [buildRequestParams_timestamp, if_pos h]
  · intro h
    rw [buildRequestParams_timestamp]
    simp [h]
  · intro hnet hamt hfloor hpk hnow hfee hga
    obtain ⟨-, out, houts, ht, hn, -, -⟩ :=
      withdraw_trace_projections env network token amount (some dst) pk fee nd
        hnet hamt hfloor hpk hnow hfee hga
    exact ⟨out, houts, ht, hn⟩

/-- Witness for the amended C9: a truthy caller timestamp (42) is kept
verbatim, and a concrete withdraw submits timestamp 1700000000000 with
nonce 1700000000000 × 1000. -/
theorem signed_timestamp_and_nonce_witness :
    getField "timestamp"
        (buildRequestParams [("timestamp", PValue.num 42)] true 7 5000) =
      getField "timestamp" [("timestamp", PValue.num 42)] ∧
    ∃ out, apiOuts
        (withdraw sampleWEnv "bnb" "aster" "2" (some "0xdst") (some "0xkey")).2 =
        [out] ∧
      getField "timestamp" out.requestParams = some (PValue.num 1700000000000) ∧
      getField "nonce" out.requestParams =
        some (PValue.str (toString (1700000000000 * 1000))) :=
  ⟨(signed_timestamp_and_nonce [("timestamp", PValue.num 42)] true 7 5000 sampleWEnv
      "bnb" "aster" "2" "0xdst" "0xkey" "0.1" "0xdst").1 (by decide),
   (signed_timestamp_and_nonce [("timestamp", PValue.num 42)] true 7 5000 sampleWEnv
      "bnb" "aster" "2" "0xdst" "0xkey" "0.1" "0xdst").2.2 (by decide) (by decide)
      (by decide) (by decide) (by decide) rfl (by decide)⟩

/-- C10: when no destination address is supplied, the EIP-712 withdrawal
value is signed over the signing wallet's own address (the address derived
from the resolved key), and the submitted API parameter map carries that
address only as the receiver field — it has no destination key at all. -/
theorem withdraw_default_destination (env : WithdrawEnv)
    (network token amount pk fee : String)
    (hnet : validateNetworkB network ["ethereum", "arbitrum", "bnb"] = true)
    (hamt : validateAmountB amount = true)
    (hfloor : stablecoinFloorReject (upperStr token) amount = false)
    (hpk : pk ≠ "") (hnow : env.ext.now ≠ 0)
    (hfee : env.feeQuote token network = .ok fee)
    (hck : env.getAddress (lowerStr (env.addrOf pk)) = some (env.addrOf pk)) :
    (signedValues (withdraw env network token amount none (some pk)).2).map
        TypedValue.destination = [env.addrOf pk] ∧
    ∃ out, apiOuts (withdraw env network token amount none (some pk)).2 = [out] ∧
      getField "destination" out.requestParams = none ∧
      getField "receiver" out.requestParams = some (.str (env.addrOf pk)) := by
  obtain ⟨hsig, out, houts, -, -, hdest, hrecv⟩ :=
    withdraw_trace_projections env network token amount none pk fee (env.addrOf pk)
      hnet hamt hfloor hpk hnow hfee hck
  exact ⟨hsig, out, houts, hdest, hrecv⟩

/-- Witness for C10 at a concrete withdraw with no destination
argument. -/
theorem withdraw_default_destination_witness :
    (signedValues (withdraw sampleWEnv "bnb" "aster" "2" none (some "0xkey")).2).map
        TypedValue.destination = ["0xabc"] ∧
    ∃ out, apiOuts (withdraw sampleWEnv "bnb" "aster" "2" none (some "0xkey")).2 =
        [out] ∧
      getField "destination" out.requestParams = none ∧
      getField "receiver" out.requestParams = some (PValue.str "0xabc") :=
  withdraw_default_destination sampleWEnv "bnb" "aster" "2" "0xkey" "0.1"
    (by decide) (by decide) (by decide) (by decide) (by decide) rfl (by decide)

/-- C6: in the ERC20 two-phase deposit, when the allowance read from the
token contract is at least the required amount in base units, no approval
transaction is submitted and the only on-chain transaction is the deposit
call; when the allowance is strictly below the required amount, exactly
one approval is submitted, for exactly the required amount, to the
deposit contract. -/
theorem erc20_deposit_allowance (env : DepositEnv) (network token amount : String)
    (pk u : String) (dc : DepositContractInfo) (na : String) (amountBN : ℤ)
    (hnet : validateNetworkB network defaultNetworks = true)
    (hamt : validateAmountB amount = true)
    (hsol : lowerStr network ≠ "solana")
    (hdc : getDepositContract (lowerStr network) = .ok dc)
    (hrpc : env.rpcUrl (lowerStr network) = some u)
    (hpk : pk ≠ "")
    (hnative : depositIsNative token (lowerStr network) = false)
    (hga : env.getAddress (lowerStr (depositTokenAddress token (lowerStr network))) =
      some na)
    (hbn : parseUnits amount env.decimals = some amountBN) :
    (amountBN ≤ env.allowance →
      ((deposit env network token amount (some pk)).2.filter DepositEffect.isTx) =
        [.txDeposit na amountBN 1000]) ∧
    (env.allowance < amountBN →
      ((deposit env network token amount (some pk)).2.filter DepositEffect.isApprove) =
        [.txApprove dc.address amountBN]) := by
  have hkey : (getWalletPrivateKey (some pk) (env.configKey (lowerStr network))
      (env.configMnemonic (lowerStr network)) env.derive (lowerStr network)).1 =
      .ok pk := by
    simp [getWalletPrivateKey, hpk]
  unfold deposit
  simp only [hnet, hamt, hsol, hdc, hrpc, hkey, hnative, hga, hbn,
    not_true_eq_false, Bool.false_eq_true, if_false, ite_false]
  constructor
  · intro hle
    rw [if_neg (not_lt.mpr hle)]
    cases env.depositOutcome <;>
      simp [DepositEffect.isTx, List.filter]
  · intro hlt
    rw [if_pos hlt]
    cases env.approveOutcome with
    | error e => simp [DepositEffect.isApprove, List.filter]
    | ok _ =>
      cases env.depositOutcome <;>
        simp [DepositEffect.isApprove, List.filter]

/-- Witness for C6: a 1.5 USDT deposit on BNB Chain with a large existing
allowance submits only the deposit transaction. -/
theorem erc20_deposit_allowance_witness :
    ((deposit sampleDEnv "bnb" "USDT" "1.5" (some "0xkey")).2.filter
        DepositEffect.isTx) =
      [.txDeposit "0x55d398326f99059ff775485246999027b3197955"
        1500000000000000000 1000] :=
  (erc20_deposit_allowance sampleDEnv "bnb" "USDT" "1.5" "0xkey"
      "https://rpc.example"
      ⟨"0x128463a60784c4d3f46c23af3f65ed859ba87974", "https://bscscan.com/tx/"⟩
      "0x55d398326f99059ff775485246999027b3197955" 1500000000000000000
      (by decide) (by decide) (by decide) rfl rfl (by decide)
      (by decide) (by decide) (by decide)).1 (by decide)

/-- C8: amount validation rejects "0", "-5" and "abc" and accepts "1.5"
and "100"; in the deposit and withdraw operations this validation runs
before any network I/O, so a rejected amount yields a failure result with
an empty interaction trace — no RPC or HTTP call and no on-chain side
effect. -/
theorem amount_validation_fail_fast :
    (validateAmountB "0" = false ∧ validateAmountB "-5" = false ∧
     validateAmountB "abc" = false ∧ validateAmountB "1.5" = true ∧
     validateAmountB "100" = true) ∧
    (∀ (env : DepositEnv) (network token amount : String) (pk : Option String),
        validateAmountB amount = false →
        (deposit env network token amount pk).2 = [] ∧
        ∃ e, (deposit env network token amount pk).1 = .failure e) ∧
    (∀ (env : WithdrawEnv) (network token amount : String)
        (toAddress pk : Option String),
        validateAmountB amount = false →
        (withdraw env network token amount toAddress pk).2 = [] ∧
        ∃ e, (withdraw env network token amount toAddress pk).1 = .failure e) := by
  refine ⟨by decide, ?_, ?_⟩
  · intro env network token amount pk hbad
    by_cases hnet : validateNetworkB network defaultNetworks = true
    · exact ⟨by simp [deposit, hnet, hbad], "amount must be a positive number",
        by simp [deposit, hnet, hbad]⟩
    · exact ⟨by simp [deposit, hnet],
        "Invalid network. Must be one of: ethereum, arbitrum, bnb, solana",
        by simp [deposit, hnet]⟩
  · intro env network token amount toAddress pk hbad
    by_cases hnet : validateNetworkB network ["ethereum", "arbitrum", "bnb"] = true
    · exact ⟨by simp [withdraw, hnet, hbad], "amount must be a positive number",
        by simp [withdraw, hnet, hbad]⟩
    · exact ⟨by simp [withdraw, hnet],
        "Invalid network. Must be one of: ethereum, arbitrum, bnb",
        by simp [withdraw, hnet]⟩

/-- Witness for C8: a deposit and a withdraw of the rejected amount "abc"
both fail with an empty interaction trace. -/
theorem amount_validation_fail_fast_witness :
    (deposit sampleDEnv "bnb" "USDT" "abc" none).2 = [] ∧
    (withdraw sampleWEnv "bnb" "USDT" "abc" none none).2 = [] :=
  ⟨(amount_validation_fail_fast.2.1 sampleDEnv "bnb" "USDT" "abc" none
      (by decide)).1,
   (amount_validation_fail_fast.2.2 sampleWEnv "bnb" "USDT" "abc" none none
      (by decide)).1⟩

/-- C1: if the deposit step succeeds and the market-buy step fails, the
saga halts immediately — no withdraw is ever invoked — and returns a
failure whose failedAt is "swap" and whose partial-results trace contains
exactly one completed step: the deposit step. -/
theorem swapAndBridge_swap_failure (env : SagaEnv)
    (fromNetwork fromToken fromAmount targetToken toNetwork toAddress : String)
    (d e : String) (hdep : env.depositResult = .ok d)
    (hswap : env.swapResult = .error e) :
    swapAndBridge env fromNetwork fromToken fromAmount targetToken toNetwork
        toAddress =
      (.fail ("Swap failed: " ++ e) "swap" (some [⟨1, "deposit", d⟩]),
       [.deposit fromNetwork fromToken fromAmount,
        .marketBuy (upperStr (targetToken ++ fromToken)) fromAmount]) ∧
    (∀ n t a ad, SagaCall.withdrawCall n t a ad ∉
        (swapAndBridge env fromNetwork fromToken fromAmount targetToken toNetwork
          toAddress).2) := by
  have hmain : swapAndBridge env fromNetwork fromToken fromAmount targetToken
      toNetwork toAddress =
      (.fail ("Swap failed: " ++ e) "swap" (some [⟨1, "deposit", d⟩]),
       [.deposit fromNetwork fromToken fromAmount,
        .marketBuy (upperStr (targetToken ++ fromToken)) fromAmount]) := by
    unfold swapAndBridge
    rw [hdep, hswap]
  refine ⟨hmain, fun n t a ad => ?_⟩
  rw [hmain]
  simp

/-- Witness for C1 at a concrete environment where the deposit succeeds
and the market buy fails. -/
theorem swapAndBridge_swap_failure_witness :
    swapAndBridge sampleSagaEnv "bnb" "USDT" "100" "ASTER" "arbitrum" "0xdest" =
      (.fail "Swap failed: insufficient balance" "swap"
        (some [⟨1, "deposit", "deposit-step-info"⟩]),
       [.deposit "bnb" "USDT" "100",
        .marketBuy (upperStr ("ASTER" ++ "USDT")) "100"]) :=
  (swapAndBridge_swap_failure sampleSagaEnv "bnb" "USDT" "100" "ASTER" "arbitrum"
    "0xdest" "deposit-step-info" "insufficient balance" rfl rfl).1

end AsterMcp
